import Mathlib

set_option maxRecDepth 16384

/-!
Shallow embedding of the Cloud Function in src/functions/streaming/main.py.

The function reacts to an object-storage event: it looks up a status record
in a document store, routes duplicates (prior record with success = true) to a
duplication handler, and otherwise parses the CSV file, transforms each data
row, calls the warehouse bulk insert, and records success or failure plus a
pub/sub notification.

External collaborators (Firestore, Cloud Storage, BigQuery, Pub/Sub) are
modelled by an environment `Env` that supplies each call site's result or
transport fault; the handler becomes a pure function from the environment and
the currently stored document to an `Outcome` holding the trace of performed
effects, the final stored document, and the fault, if any, that propagated out
of the entry point.  Logging calls and the textual content of tracebacks are
not modelled (no claim concerns them); traceback.format_exc() is replaced by a
fixed rendering `faultText` of the caught fault. File bytes and UTF-8 decoding
are collapsed into one fallible step delivering the decoded text, with
`Fault.decodeError` available as the failure of that step.
-/

/-- Python datetime value as produced by `datetime.strptime` (microseconds are
always zero for the format used, so they are omitted). -/
structure PyDateTime where
  year : Nat
  month : Nat
  day : Nat
  hour : Nat
  minute : Nat
  second : Nat
deriving DecidableEq, Repr

def isLeapYear (y : Nat) : Bool :=
  y % 4 = 0 && (y % 100 ≠ 0 || y % 400 = 0)

def daysInMonth (y m : Nat) : Nat :=
  if m = 2 then (if isLeapYear y then 29 else 28)
  else if m = 4 ∨ m = 6 ∨ m = 9 ∨ m = 11 then 30
  else 31

/-- Validation performed by the `datetime` constructor: year in MINYEAR..MAXYEAR,
day within the month, second at most 59 (strptime itself admits 60 and 61,
which the constructor then rejects).  Month, day lower bound, hour and minute
ranges are already guaranteed by the strptime field patterns. -/
def mkDatetime (y mo d h mi s : Nat) : Option PyDateTime :=
  if 1 ≤ y ∧ y ≤ 9999 ∧ 1 ≤ d ∧ d ≤ daysInMonth y mo ∧ s ≤ 59 then
    some ⟨y, mo, d, h, mi, s⟩
  else none

def digitVal (c : Char) : Nat := c.toNat - 48

def takeDigits : List Char → List Char × List Char
  | [] => ([], [])
  | c :: cs =>
    if c.isDigit then
      let (ds, rest) := takeDigits cs
      (c :: ds, rest)
    else ([], c :: cs)

def natOfDigits (ds : List Char) : Nat :=
  ds.foldl (fun a c => a * 10 + digitVal c) 0

/-- Format whitespace compiles to the pattern "one or more whitespace
characters" in Python strptime; consuming the maximal run is sound here since
no subsequent token of this format matches whitespace. -/
def skipWs1 : List Char → Option (List Char)
  | c :: cs => if c.isWhitespace then some (cs.dropWhile Char.isWhitespace) else none
  | [] => none

def expectChar (c : Char) : List Char → Option (List Char)
  | d :: ds => if d = c then some ds else none
  | [] => none

def monthAbbrevs : List String :=
  ["jan", "feb", "mar", "apr", "may", "jun", "jul", "aug", "sep", "oct", "nov", "dec"]

/-- Percent-b: one of the locale month abbreviations, matched case-insensitively. -/
def parseMonth : List Char → Option (Nat × List Char)
  | c1 :: c2 :: c3 :: rest =>
    match monthAbbrevs.findIdx? (· == String.mk [c1.toLower, c2.toLower, c3.toLower]) with
    | some i => some (i + 1, rest)
    | none => none
  | _ => none

/-- Percent-d day field followed by a non-digit literal: a single digit 1-9, or
two digits spelling 01..31.  Longer digit runs cannot match since the
following literal is not a digit (regex backtracking also fails then). -/
def dayOfRun (ds : List Char) : Option Nat :=
  match ds with
  | [_] => let v := natOfDigits ds; if 1 ≤ v then some v else none
  | [_, _] => let v := natOfDigits ds; if 1 ≤ v ∧ v ≤ 31 then some v else none
  | _ => none

/-- Percent-Y: exactly four digits. -/
def yearOfRun (ds : List Char) : Option Nat :=
  match ds with
  | [_, _, _, _] => some (natOfDigits ds)
  | _ => none

/-- Percent-I twelve-hour field: a single digit 1-9, or two digits 01..12. -/
def hourOfRun (ds : List Char) : Option Nat :=
  match ds with
  | [_] => let v := natOfDigits ds; if 1 ≤ v then some v else none
  | [_, _] => let v := natOfDigits ds; if 1 ≤ v ∧ v ≤ 12 then some v else none
  | _ => none

/-- Percent-M: one digit, or two digits up to 59. -/
def minuteOfRun (ds : List Char) : Option Nat :=
  match ds with
  | [_] => some (natOfDigits ds)
  | [_, _] => let v := natOfDigits ds; if v ≤ 59 then some v else none
  | _ => none

/-- Percent-S: one digit, or two digits up to 61 (leap seconds admitted by the
pattern; the datetime constructor rejects 60 and 61 afterwards). -/
def secondOfRun (ds : List Char) : Option Nat :=
  match ds with
  | [_] => some (natOfDigits ds)
  | [_, _] => let v := natOfDigits ds; if v ≤ 61 then some v else none
  | _ => none

/-- Percent-p: the AM/PM designator, case-insensitive; true means PM. -/
def parseAmPm : List Char → Option (Bool × List Char)
  | c1 :: c2 :: rest =>
    let key := String.mk [c1.toLower, c2.toLower]
    if key = "am" then some (false, rest)
    else if key = "pm" then some (true, rest)
    else none
  | _ => none

/-- Python `datetime.strptime(s, concatenation of percent-directives b d comma
Y I colon M colon S p)`: month abbreviation, day, comma, year, twelve-hour
time, AM/PM marker; any unconverted trailing data is an error; the hour is
folded to the 24-hour clock and the result validated by the datetime
constructor. -/
def strptimeTractor (s : String) : Option PyDateTime := do
  let cs := s.data
  let (month, cs) ← parseMonth cs
  let cs ← skipWs1 cs
  let (dds, cs) := takeDigits cs
  let day ← dayOfRun dds
  let cs ← expectChar ',' cs
  let cs ← skipWs1 cs
  let (yds, cs) := takeDigits cs
  let year ← yearOfRun yds
  let cs ← skipWs1 cs
  let (hds, cs) := takeDigits cs
  let hour12 ← hourOfRun hds
  let cs ← expectChar ':' cs
  let (mds, cs) := takeDigits cs
  let minute ← minuteOfRun mds
  let cs ← expectChar ':' cs
  let (sds, cs) := takeDigits cs
  let second ← secondOfRun sds
  let cs ← skipWs1 cs
  let (pm, cs) ← parseAmPm cs
  if cs = [] then
    let hour := if pm then (if hour12 = 12 then 12 else hour12 + 12)
                else (if hour12 = 12 then 0 else hour12)
    mkDatetime year month day hour minute second
  else none

def padNum (w n : Nat) : String :=
  let s := toString n
  String.mk (List.replicate (w - s.length) '0') ++ s

/-- Python `str(datetime(...))` with zero microseconds: the ISO-like rendering
"YYYY-MM-DD HH:MM:SS" with zero padding. -/
def datetimeStr (dt : PyDateTime) : String :=
  padNum 4 dt.year ++ "-" ++ padNum 2 dt.month ++ "-" ++ padNum 2 dt.day ++ " " ++
  padNum 2 dt.hour ++ ":" ++ padNum 2 dt.minute ++ ":" ++ padNum 2 dt.second

/-- Rows produced by iterating `csv.reader(StringIO(fileContents), delimiter
semicolon)`: the text is split into lines, a final empty remainder after the
last newline yields no row, an empty line yields an empty (zero-field) row,
and every other line is split on the semicolon.  (Quoting and carriage
returns are not exercised by this pipeline and are not modelled.) -/
def splitOnChar (sep : Char) : List Char → List (List Char)
  | [] => [[]]
  | c :: cs =>
    match splitOnChar sep cs with
    | g :: gs => if c = sep then [] :: g :: gs else (c :: g) :: gs
    | [] => [[c]]

def csvRows (s : String) : List (List String) :=
  let lines := (splitOnChar '\n' s.data).map String.mk
  let lines := if lines.getLast? = some "" then lines.dropLast else lines
  lines.map fun line => if line = "" then []
    else (splitOnChar ';' line.data).map String.mk

/-- The 19 positional fields destructured by the for-loop header, in source
column order (longitude before latitude). -/
structure RawRow where
  dateTime : String
  serial : String
  gpsLon : String
  gpsLat : String
  workingHs : String
  engineRpm : String
  engineLoad : String
  fuelConsumption : String
  speedGearbox : String
  speedRadar : String
  motorTemperature : String
  frontPtoRpm : String
  rearPtoRpm : String
  gearShift : String
  ambientTemperature : String
  parkingBreakStatus : String
  differentialLockStatus : String
  allWheelStatus : String
  creeperStatus : String
deriving DecidableEq, Repr

/-- Tuple destructuring in the loop header: succeeds exactly on 19-element
rows; any other shape raises ValueError in Python. -/
def destructure19 : List String → Option RawRow
  | [a1, a2, a3, a4, a5, a6, a7, a8, a9, a10,
     a11, a12, a13, a14, a15, a16, a17, a18, a19] =>
      some ⟨a1, a2, a3, a4, a5, a6, a7, a8, a9, a10,
            a11, a12, a13, a14, a15, a16, a17, a18, a19⟩
  | _ => none

/-- The 18-field tuple appended to parsedRows, in the order the source builds
it: rendered datetime, serial, merged position, then the 15 remaining fields. -/
structure TransRow where
  dateTimeStr : String
  serial : String
  gps : String
  workingHs : String
  engineRpm : String
  engineLoad : String
  fuelConsumption : String
  speedGearbox : String
  speedRadar : String
  motorTemperature : String
  frontPtoRpm : String
  rearPtoRpm : String
  gearShift : String
  ambientTemperature : String
  parkingBreakStatus : String
  differentialLockStatus : String
  allWheelStatus : String
  creeperStatus : String
deriving DecidableEq, Repr

def TransRow.toList (r : TransRow) : List String :=
  [r.dateTimeStr, r.serial, r.gps, r.workingHs, r.engineRpm, r.engineLoad,
   r.fuelConsumption, r.speedGearbox, r.speedRadar, r.motorTemperature,
   r.frontPtoRpm, r.rearPtoRpm, r.gearShift, r.ambientTemperature,
   r.parkingBreakStatus, r.differentialLockStatus, r.allWheelStatus,
   r.creeperStatus]

/-- Body of the row loop once the datetime has been parsed: latitude and
longitude merge into one field, latitude first; the datetime is rendered by
`str`; all other fields pass through verbatim. -/
def transformRow (r : RawRow) (dt : PyDateTime) : TransRow where
  dateTimeStr := datetimeStr dt
  serial := r.serial
  gps := r.gpsLat ++ ", " ++ r.gpsLon
  workingHs := r.workingHs
  engineRpm := r.engineRpm
  engineLoad := r.engineLoad
  fuelConsumption := r.fuelConsumption
  speedGearbox := r.speedGearbox
  speedRadar := r.speedRadar
  motorTemperature := r.motorTemperature
  frontPtoRpm := r.frontPtoRpm
  rearPtoRpm := r.rearPtoRpm
  gearShift := r.gearShift
  ambientTemperature := r.ambientTemperature
  parkingBreakStatus := r.parkingBreakStatus
  differentialLockStatus := r.differentialLockStatus
  allWheelStatus := r.allWheelStatus
  creeperStatus := r.creeperStatus

/-- Faults observable by the handler: Python exception kinds raised by the
pipeline itself, plus transport-level faults of the collaborator calls. -/
inductive Fault where
  | notFound
  | decodeError
  | parseError
  | datetimeError
  | keyError
  | typeError
  | bigQueryError (rowErrors : List String)
  | transport (msg : String)
deriving DecidableEq, Repr

/-- The row loop of `_insert_into_bigquery`: every row, the first one
included, is destructured into the 19-field schema (ValueError, here
`Fault.parseError`, otherwise); the first row is then skipped as the header
before any datetime parsing; each remaining row has its first field parsed
with strptime (`Fault.datetimeError` on failure) and is transformed. -/
def parseAndTransform : List (List String) → Bool → Except Fault (List TransRow)
  | [], _ => .ok []
  | row :: rest, first =>
    match destructure19 row with
    | none => .error .parseError
    | some raw =>
      if first then parseAndTransform rest false
      else
        match strptimeTractor raw.dateTime with
        | none => .error .datetimeError
        | some dt =>
          match parseAndTransform rest false with
          | .error f => .error f
          | .ok rows => .ok (transformRow raw dt :: rows)

/-- A Firestore document for streaming_files, as a partial map of the fields
this program reads and writes.  A missing field is `none`. -/
structure Doc where
  success : Option Bool
  error_message : Option String
  when : Option String
  duplication_attempts : Option (List String)
deriving DecidableEq, Repr

/-- The two Pub/Sub topics addressed by the function. -/
inductive Topic where
  | success
  | error
deriving DecidableEq, Repr

/-- Observable side effects on the collaborators, in execution order.  The
bulk-insert payload distinguishes the raw file text (left) from a transformed
row batch (right), since `BQ.insert_rows` is handed one or the other. -/
inductive Effect where
  | bqInsert (payload : String ⊕ List TransRow)
  | docSet (doc : Doc)
  | docUpdate (duplicationAttempts : List String)
  | publish (topic : Topic) (message : String) (fileName : String)
deriving DecidableEq, Repr

/-- Results and faults the external services deliver at each call site of one
invocation.  `fileContents` merges the blob fetch and the UTF-8 decode into
the decoded text (`Fault.notFound`, `Fault.decodeError` or a transport fault
on failure); `insertResult` is the `insert_rows` return value, a list of
row-error descriptions, empty on success.  `now` is the timestamp string
`_now()` renders during this invocation. -/
structure Env where
  lookupFault : Option Fault
  dupGetFault : Option Fault
  dupUpdateFault : Option Fault
  fileContents : Except Fault String
  insertResult : Except Fault (List String)
  successSetFault : Option Fault
  successPubFault : Option Fault
  errorSetFault : Option Fault
  errorPubFault : Option Fault
  now : String
deriving Repr

/-- Result of one invocation of the entry point: the effect trace, the final
stored document, and the fault, if any, that escaped the entry point. -/
structure Outcome where
  effects : List Effect
  store : Option Doc
  fault : Option Fault
deriving DecidableEq, Repr

/-- `_was_already_ingested`: get the snapshot, then `status.exists and
status.to_dict()[success-key]`.  A transport fault of the get, and the
KeyError raised when an existing document lacks the success field, both
escape to the caller. -/
def wasAlreadyIngested (env : Env) (store : Option Doc) : Except Fault Bool :=
  match env.lookupFault with
  | some f => .error f
  | none =>
    match store with
    | none => .ok false
    | some d =>
      match d.success with
      | none => .error .keyError
      | some b => .ok b

/-- Stand-in for traceback.format_exc(): a fixed rendering of the caught
exception kind. -/
def faultText : Fault → String
  | .notFound => "NotFound"
  | .decodeError => "UnicodeDecodeError"
  | .parseError => "ValueError: not enough values to unpack"
  | .datetimeError => "ValueError: time data does not match format"
  | .keyError => "KeyError: success"
  | .typeError => "TypeError: argument of type NoneType is not iterable"
  | .bigQueryError errs => "BigQueryError: " ++ String.intercalate ", " errs
  | .transport m => m

/-- `_handle_duplication`: build dups as the fresh timestamp followed by the
previously stored attempts, then merge-update the single field
duplication_attempts.  The second get and the update are collaborator calls
whose faults escape; to_dict() of a missing snapshot is None, and the
membership test on None raises TypeError.  (The warning log is not modelled.) -/
def handleDuplication (env : Env) (store : Option Doc) : Outcome :=
  match env.dupGetFault with
  | some f => ⟨[], store, some f⟩
  | none =>
    match store with
    | none => ⟨[], store, some .typeError⟩
    | some d =>
      let dups := env.now :: d.duplication_attempts.getD []
      match env.dupUpdateFault with
      | some f => ⟨[], store, some f⟩
      | none =>
        ⟨[.docUpdate dups], some { d with duplication_attempts := some dups }, none⟩

/-- `_insert_into_bigquery`: fetch and decode the blob, run the row loop over
the parsed CSV (computing parsedRows), then call `BQ.insert_rows(table,
fileContents)` — the argument is the file text, not parsedRows — and raise
BigQueryError when the returned error list is nonempty.  The insert call
appears in the trace whenever it is reached, whatever its result. -/
def insertIntoBigquery (env : Env) : List Effect × Option Fault :=
  match env.fileContents with
  | .error f => ([], some f)
  | .ok fileContents =>
    match parseAndTransform (csvRows fileContents) true with
    | .error f => ([], some f)
    | .ok _parsedRows =>
      match env.insertResult with
      | .error f => ([.bqInsert (.inl fileContents)], some f)
      | .ok errors =>
        if errors = [] then ([.bqInsert (.inl fileContents)], none)
        else ([.bqInsert (.inl fileContents)], some (.bigQueryError errors))

def successMessage (fileName : String) : String :=
  "File " ++ fileName ++ " streamed into BigQuery"

/-- The document `_handle_success` writes: success true and the current
timestamp, nothing else — `set` replaces the whole document. -/
def successDoc (env : Env) : Doc :=
  { success := some true, error_message := none, when := some env.now,
    duplication_attempts := none }

/-- `_handle_success`: set the success document (full replace), then publish
the confirmation on the success topic with the object name as file_name
metadata.  (The info log is not modelled.) -/
def handleSuccess (env : Env) (name : String) (store : Option Doc) : Outcome :=
  match env.successSetFault with
  | some f => ⟨[], store, some f⟩
  | none =>
    match env.successPubFault with
    | some f => ⟨[.docSet (successDoc env)], some (successDoc env), some f⟩
    | none =>
      ⟨[.docSet (successDoc env),
        .publish .success (successMessage name) name],
       some (successDoc env), none⟩

def errorMessage (fileName : String) (f : Fault) : String :=
  "Error streaming file " ++ fileName ++ ". Cause: " ++ faultText f

/-- The document `_handle_error` writes: success false, the error message with
diagnostic text, and the current timestamp — `set` replaces the whole
document. -/
def errorDoc (env : Env) (name : String) (f : Fault) : Doc :=
  { success := some false, error_message := some (errorMessage name f),
    when := some env.now, duplication_attempts := none }

/-- `_handle_error`: set the failure document (full replace), then publish the
error message on the error topic with the object name as file_name metadata.
Faults of these two calls escape, since they run inside the except block.
(The error log is not modelled.) -/
def handleError (env : Env) (name : String) (f : Fault) (store : Option Doc) : Outcome :=
  match env.errorSetFault with
  | some g => ⟨[], store, some g⟩
  | none =>
    match env.errorPubFault with
    | some g => ⟨[.docSet (errorDoc env name f)], some (errorDoc env name f), some g⟩
    | none =>
      ⟨[.docSet (errorDoc env name f),
        .publish .error (errorMessage name f) name],
       some (errorDoc env name f), none⟩

/-- The try block: `_insert_into_bigquery` then `_handle_success`, with their
effects in order; the first fault aborts the block. -/
def tryBranch (env : Env) (name : String) (store : Option Doc) : Outcome :=
  let step := insertIntoBigquery env
  match step.2 with
  | some f => ⟨step.1, store, some f⟩
  | none =>
    let o := handleSuccess env name store
    ⟨step.1 ++ o.effects, o.store, o.fault⟩

/-- The entry point `streaming`: the duplicate check routes to
`_handle_duplication` (outside any try block), otherwise the try block runs
and any exception it raises is handled by `_handle_error`. -/
def streaming (env : Env) (store : Option Doc) (name : String) : Outcome :=
  match wasAlreadyIngested env store with
  | .error f => ⟨[], store, some f⟩
  | .ok true => handleDuplication env store
  | .ok false =>
    let o := tryBranch env name store
    match o.fault with
    | none => o
    | some f =>
      let oe := handleError env name f o.store
      ⟨o.effects ++ oe.effects, oe.store, oe.fault⟩

/-- Number of publish effects on a given topic in a trace. -/
def publishCount (t : Topic) (effs : List Effect) : Nat :=
  effs.countP fun e =>
    match e with
    | .publish topic _ _ => topic == t
    | _ => false

/-- Number of warehouse bulk-insert calls in a trace. -/
def insertCount (effs : List Effect) : Nat :=
  effs.countP fun e =>
    match e with
    | .bqInsert _ => true
    | _ => false

instance {ε α : Type} [DecidableEq ε] [DecidableEq α] : DecidableEq (Except ε α) := fun x y =>
  match x, y with
  | .error a, .error b =>
    if h : a = b then isTrue (by rw [h]) else isFalse fun hh => h (Except.error.inj hh)
  | .ok a, .ok b =>
    if h : a = b then isTrue (by rw [h]) else isFalse fun hh => h (Except.ok.inj hh)
  | .error _, .ok _ => isFalse fun hh => Except.noConfusion hh
  | .ok _, .error _ => isFalse fun hh => Except.noConfusion hh

theorem destructure19_length (row : List String) (raw : RawRow)
    (h : destructure19 row = some raw) : row.length = 19 := by
  unfold destructure19 at h
  split at h
  · rfl
  · exact Option.noConfusion h

theorem parseAndTransform_ok_length (rows : List (List String)) (b : Bool)
    (R : List TransRow) (h : parseAndTransform rows b = .ok R) :
    ∀ row ∈ rows, row.length = 19 := by
  induction rows generalizing b R with
  | nil => intro row hrow; exact absurd hrow (List.not_mem_nil row)
  | cons r rest ih =>
    intro row hrow
    unfold parseAndTransform at h
    rcases List.mem_cons.mp hrow with hr | hr
    · subst hr
      cases hd : destructure19 row with
      | none => rw [hd] at h; exact Except.noConfusion h
      | some raw => exact destructure19_length row raw hd
    · cases hd : destructure19 r with
      | none => rw [hd] at h; exact Except.noConfusion h
      | some raw =>
        rw [hd] at h
        by_cases hb : b
        · simp [hb] at h
          exact ih false R h row hr
        · simp [hb] at h
          cases hdt : strptimeTractor raw.dateTime with
          | none => rw [hdt] at h; exact Except.noConfusion h
          | some dt =>
            rw [hdt] at h
            cases hrest : parseAndTransform rest false with
            | error f => rw [hrest] at h; exact Except.noConfusion h
            | ok rs => exact ih false rs hrest row hr

theorem parseAndTransform_ok_datetime (rows : List (List String))
    (R : List TransRow) (h : parseAndTransform rows false = .ok R) :
    ∀ row ∈ rows, ∀ raw, destructure19 row = some raw →
      strptimeTractor raw.dateTime ≠ none := by
  induction rows generalizing R with
  | nil => intro row hrow; exact absurd hrow (List.not_mem_nil row)
  | cons r rest ih =>
    intro row hrow raw hraw
    unfold parseAndTransform at h
    cases hd : destructure19 r with
    | none => rw [hd] at h; exact Except.noConfusion h
    | some raw0 =>
      rw [hd] at h
      simp only [Bool.false_eq_true, if_false] at h
      cases hdt : strptimeTractor raw0.dateTime with
      | none => rw [hdt] at h; exact Except.noConfusion h
      | some dt =>
        rw [hdt] at h
        rcases List.mem_cons.mp hrow with hr | hr
        · subst hr
          rw [hraw] at hd
          cases hd
          rw [hdt]
          exact Option.noConfusion
        · cases hrest : parseAndTransform rest false with
          | error f => rw [hrest] at h; exact Except.noConfusion h
          | ok rs => exact ih rs hrest row hr raw hraw

theorem parseAndTransform_true_datetime (rows : List (List String))
    (R : List TransRow) (h : parseAndTransform rows true = .ok R) :
    ∀ i row, rows.get? (i + 1) = some row → ∀ raw, destructure19 row = some raw →
      strptimeTractor raw.dateTime ≠ none := by
  intro i row hget raw hraw
  cases rows with
  | nil => exact Option.noConfusion hget
  | cons r rest =>
    unfold parseAndTransform at h
    cases hd : destructure19 r with
    | none => rw [hd] at h; exact Except.noConfusion h
    | some raw0 =>
      rw [hd] at h
      simp only [if_true] at h
      have hmem : row ∈ rest := List.get?_mem hget
      exact parseAndTransform_ok_datetime rest R h row hmem raw hraw

theorem insertIntoBigquery_effects (env : Env) :
    (insertIntoBigquery env).1 = [] ∨
    ∃ s, (insertIntoBigquery env).1 = [Effect.bqInsert (Sum.inl s)] := by
  rcases hc : env.fileContents with f | s
  · left; simp [insertIntoBigquery, hc]
  · rcases hp : parseAndTransform (csvRows s) true with f | R
    · left; simp [insertIntoBigquery, hc, hp]
    · rcases hi : env.insertResult with f | errs
      · right; exact ⟨s, by simp [insertIntoBigquery, hc, hp, hi]⟩
      · right
        refine ⟨s, ?_⟩
        by_cases he : errs = [] <;> simp [insertIntoBigquery, hc, hp, hi, he]

theorem insertIntoBigquery_no_publish (env : Env) (t : Topic) :
    publishCount t (insertIntoBigquery env).1 = 0 := by
  rcases insertIntoBigquery_effects env with h | ⟨s, h⟩ <;>
    simp [h, publishCount]

theorem handleSuccess_fault_effects (env : Env) (name : String) (store : Option Doc)
    (f : Fault) (h : (handleSuccess env name store).fault = some f) :
    (handleSuccess env name store).effects = [] ∨
    (handleSuccess env name store).effects = [Effect.docSet (successDoc env)] := by
  unfold handleSuccess at h ⊢
  rcases hs : env.successSetFault with _ | g
  · rw [hs] at h
    rcases hp : env.successPubFault with _ | g2
    · rw [hp] at h
      exact Option.noConfusion h
    · right; rfl
  · left; rfl

theorem tryBranch_fault_no_publish (env : Env) (name : String) (store : Option Doc)
    (t : Topic) (f : Fault) (h : (tryBranch env name store).fault = some f) :
    publishCount t (tryBranch env name store).effects = 0 := by
  rw [tryBranch] at h ⊢
  simp only at h ⊢
  rcases hstep : (insertIntoBigquery env).2 with _ | g
  · rw [hstep] at h
    simp only at h ⊢
    rw [publishCount, List.countP_append, ← publishCount, ← publishCount]
    rw [insertIntoBigquery_no_publish env t]
    rcases handleSuccess_fault_effects env name store f h with he | he <;>
      simp [he, publishCount]
  · simp only
    exact insertIntoBigquery_no_publish env t

theorem tryBranch_parse_error (env : Env) (name : String) (store : Option Doc)
    (s : String) (f : Fault) (hc : env.fileContents = .ok s)
    (hpp : parseAndTransform (csvRows s) true = .error f) :
    tryBranch env name store = ⟨[], store, some f⟩ := by
  simp [tryBranch, insertIntoBigquery, hc, hpp]

/-- An environment in which every collaborator call succeeds, the file is
empty, and the warehouse reports no row errors. -/
def envOk : Env :=
  { lookupFault := none, dupGetFault := none, dupUpdateFault := none,
    fileContents := .ok "", insertResult := .ok [],
    successSetFault := none, successPubFault := none,
    errorSetFault := none, errorPubFault := none,
    now := "2020-01-01 00:00:00 UTC" }

/-- A stored record of a previously successful ingestion that already has one
duplication attempt. -/
def docPrior : Doc :=
  { success := some true, error_message := none,
    when := some "2019-12-31 00:00:00 UTC",
    duplication_attempts := some ["2019-12-31 12:00:00 UTC"] }

/-- The document after the duplicate branch runs: the fresh timestamp is
consed onto the previously stored attempts. -/
def dupUpdated (env : Env) (d : Doc) : Doc :=
  { d with duplication_attempts := some (env.now :: d.duplication_attempts.getD []) }

/-- C1: for an object whose status record exists with success = true, the
handler takes the duplicate branch: it never calls the warehouse bulk insert,
updates the record to hold exactly one new timestamp in front of all prior
duplication attempts, publishes on neither topic, and returns normally. -/
theorem c1_duplicate_path (env : Env) (d : Doc) (name : String)
    (hl : env.lookupFault = none) (hs : d.success = some true)
    (hg : env.dupGetFault = none) (hu : env.dupUpdateFault = none) :
    insertCount (streaming env (some d) name).effects = 0 ∧
    (streaming env (some d) name).store = some (dupUpdated env d) ∧
    publishCount Topic.success (streaming env (some d) name).effects = 0 ∧
    publishCount Topic.error (streaming env (some d) name).effects = 0 ∧
    (streaming env (some d) name).fault = none := by
  have hrun : streaming env (some d) name =
      ⟨[Effect.docUpdate (env.now :: d.duplication_attempts.getD [])],
       some (dupUpdated env d), none⟩ := by
    simp [streaming, wasAlreadyIngested, handleDuplication, dupUpdated, hl, hs, hg, hu]
  rw [hrun]
  refine ⟨?_, rfl, ?_, ?_, rfl⟩ <;> simp [insertCount, publishCount]

/-- Witness for C1 at a concrete environment and stored record. -/
theorem c1_duplicate_path_witness :
    envOk.lookupFault = none ∧ docPrior.success = some true ∧
    envOk.dupGetFault = none ∧ envOk.dupUpdateFault = none ∧
    (insertCount (streaming envOk (some docPrior) "tractor.csv").effects = 0 ∧
     (streaming envOk (some docPrior) "tractor.csv").store = some (dupUpdated envOk docPrior) ∧
     publishCount Topic.success (streaming envOk (some docPrior) "tractor.csv").effects = 0 ∧
     publishCount Topic.error (streaming envOk (some docPrior) "tractor.csv").effects = 0 ∧
     (streaming envOk (some docPrior) "tractor.csv").fault = none) :=
  ⟨rfl, rfl, rfl, rfl, c1_duplicate_path envOk docPrior "tractor.csv" rfl rfl rfl rfl⟩

/-- C10: on the duplicate branch the updated duplication_attempts list is
most-recent-first: the freshly generated timestamp is placed at the front and
all previously stored attempts follow in their existing order. -/
theorem c10_duplication_attempts_order (env : Env) (d : Doc) (name : String)
    (hl : env.lookupFault = none) (hs : d.success = some true)
    (hg : env.dupGetFault = none) (hu : env.dupUpdateFault = none) :
    ∃ updated : List String,
      Effect.docUpdate updated ∈ (streaming env (some d) name).effects ∧
      (streaming env (some d) name).store =
        some { d with duplication_attempts := some updated } ∧
      updated.head? = some env.now ∧
      updated.tail = d.duplication_attempts.getD [] := by
  refine ⟨env.now :: d.duplication_attempts.getD [], ?_, ?_, rfl, rfl⟩ <;>
    simp [streaming, wasAlreadyIngested, handleDuplication, hl, hs, hg, hu]

/-- Witness for C10 at a concrete environment and stored record. -/
theorem c10_duplication_attempts_order_witness :
    envOk.lookupFault = none ∧ docPrior.success = some true ∧
    envOk.dupGetFault = none ∧ envOk.dupUpdateFault = none ∧
    (∃ updated : List String,
      Effect.docUpdate updated ∈ (streaming envOk (some docPrior) "dup.csv").effects ∧
      (streaming envOk (some docPrior) "dup.csv").store =
        some { docPrior with duplication_attempts := some updated } ∧
      updated.head? = some envOk.now ∧
      updated.tail = docPrior.duplication_attempts.getD []) :=
  ⟨rfl, rfl, rfl, rfl,
   c10_duplication_attempts_order envOk docPrior "dup.csv" rfl rfl rfl rfl⟩

/-- C2: whenever the processing branch reaches the warehouse call, the bulk
insert is invoked with the original file text, not with the transformed row
batch that the loop accumulated: the trace holds exactly one insert whose
payload is the file text, and no insert carrying a row batch occurs. -/
theorem c2_insert_gets_raw_text (env : Env) (s : String) (rows : List TransRow)
    (hc : env.fileContents = .ok s)
    (hp : parseAndTransform (csvRows s) true = .ok rows)
    (hi : env.insertResult = .ok []) :
    (insertIntoBigquery env).1 = [Effect.bqInsert (Sum.inl s)] ∧
    ∀ r : List TransRow, Effect.bqInsert (Sum.inr r) ∉ (insertIntoBigquery env).1 := by
  constructor
  · simp [insertIntoBigquery, hc, hp, hi]
  · intro r
    simp [insertIntoBigquery, hc, hp, hi]

def headerLine : String :=
  "date;serial;lon;lat;wh;rpm;load;fuel;gbx;radar;mtemp;fpto;rpto;gear;atemp;pbrake;dlock;awheel;creep"

def dataLine : String :=
  "Jan 5, 2018 3:04:05 PM;SN1;9.2;45.1;h;r;l;f;g;sr;mt;fp;rp;gs;at;pb;dl;aw;cs"

/-- A well-formed file: a 19-column header plus one valid data row. -/
def sampleFile : String := headerLine ++ "\n" ++ dataLine

/-- The transformed row the loop computes for `dataLine`. -/
def sampleTransRow : TransRow :=
  ⟨"2018-01-05 15:04:05", "SN1", "45.1, 9.2", "h", "r", "l", "f", "g", "sr",
   "mt", "fp", "rp", "gs", "at", "pb", "dl", "aw", "cs"⟩

def envSample : Env := { envOk with fileContents := .ok sampleFile }

/-- Witness for C2 at the concrete sample file. -/
theorem c2_insert_gets_raw_text_witness :
    envSample.fileContents = .ok sampleFile ∧
    parseAndTransform (csvRows sampleFile) true = .ok [sampleTransRow] ∧
    envSample.insertResult = .ok [] ∧
    ((insertIntoBigquery envSample).1 = [Effect.bqInsert (Sum.inl sampleFile)] ∧
     ∀ r : List TransRow, Effect.bqInsert (Sum.inr r) ∉ (insertIntoBigquery envSample).1) :=
  ⟨rfl, by decide, rfl,
   c2_insert_gets_raw_text envSample sampleFile [sampleTransRow] rfl (by decide) rfl⟩

/-- When the duplicate check answers false, the try block faults, and the
failure handler's own calls succeed, the whole run reduces to the try block's
effects followed by the failure-document write and the error publish. -/
theorem streaming_error_path (env : Env) (store : Option Doc)
    (name : String) (f : Fault)
    (hl : wasAlreadyIngested env store = .ok false)
    (hf : (tryBranch env name store).fault = some f)
    (he1 : env.errorSetFault = none) (he2 : env.errorPubFault = none) :
    streaming env store name =
      ⟨(tryBranch env name store).effects ++
        [Effect.docSet (errorDoc env name f),
         Effect.publish Topic.error (errorMessage name f) name],
       some (errorDoc env name f), none⟩ := by
  unfold streaming
  rw [hl]
  simp only
  rw [hf]
  unfold handleError
  rw [he1, he2]

/-- C3: any exception inside the try block — object fetch, decode, parse,
datetime, bulk insert, or a fault in success handling — is caught: the
handler writes the failure document, fully replacing any prior record (no
duplication_attempts survive), publishes exactly one error notification and
nothing on the success topic, and returns normally. -/
theorem c3_processing_fault_converted (env : Env) (store : Option Doc)
    (name : String) (f : Fault)
    (hl : wasAlreadyIngested env store = .ok false)
    (hf : (tryBranch env name store).fault = some f)
    (he1 : env.errorSetFault = none) (he2 : env.errorPubFault = none) :
    (streaming env store name).fault = none ∧
    (streaming env store name).store = some (errorDoc env name f) ∧
    (errorDoc env name f).success = some false ∧
    (errorDoc env name f).error_message = some (errorMessage name f) ∧
    (errorDoc env name f).duplication_attempts = none ∧
    publishCount Topic.error (streaming env store name).effects = 1 ∧
    publishCount Topic.success (streaming env store name).effects = 0 := by
  have hstream := streaming_error_path env store name f hl hf he1 he2
  rw [hstream]
  refine ⟨rfl, rfl, rfl, rfl, rfl, ?_, ?_⟩
  · show publishCount Topic.error (_ ++ _) = 1
    rw [publishCount, List.countP_append, ← publishCount, ← publishCount,
      tryBranch_fault_no_publish env name store Topic.error f hf]
    simp [publishCount]
  · show publishCount Topic.success (_ ++ _) = 0
    rw [publishCount, List.countP_append, ← publishCount, ← publishCount,
      tryBranch_fault_no_publish env name store Topic.success f hf]
    simp [publishCount]

def envFetchFail : Env := { envOk with fileContents := .error .notFound }

/-- Witness for C3: the object fetch faults in a concrete environment. -/
theorem c3_processing_fault_converted_witness :
    wasAlreadyIngested envFetchFail none = .ok false ∧
    (tryBranch envFetchFail "f.csv" none).fault = some .notFound ∧
    envFetchFail.errorSetFault = none ∧ envFetchFail.errorPubFault = none ∧
    ((streaming envFetchFail none "f.csv").fault = none ∧
     (streaming envFetchFail none "f.csv").store =
       some (errorDoc envFetchFail "f.csv" .notFound) ∧
     (errorDoc envFetchFail "f.csv" .notFound).success = some false ∧
     (errorDoc envFetchFail "f.csv" .notFound).error_message =
       some (errorMessage "f.csv" .notFound) ∧
     (errorDoc envFetchFail "f.csv" .notFound).duplication_attempts = none ∧
     publishCount Topic.error (streaming envFetchFail none "f.csv").effects = 1 ∧
     publishCount Topic.success (streaming envFetchFail none "f.csv").effects = 0) :=
  ⟨rfl, rfl, rfl, rfl,
   c3_processing_fault_converted envFetchFail none "f.csv" .notFound rfl rfl rfl rfl⟩

/-- C4: a file containing a data row with a wrong field count or an
unparseable first field makes the row loop fail before the warehouse call:
the trace holds no bulk insert, the final record is the failure document
(success false), exactly one error notification is published, and the handler
returns normally. -/
theorem c4_bad_row_no_insert (env : Env) (store : Option Doc) (name : String)
    (s : String)
    (hl : wasAlreadyIngested env store = .ok false)
    (hc : env.fileContents = .ok s)
    (hbad : (∃ row ∈ csvRows s, row.length ≠ 19) ∨
            (∃ i row, (csvRows s).get? (i + 1) = some row ∧
              ∃ raw, destructure19 row = some raw ∧
                strptimeTractor raw.dateTime = none))
    (he1 : env.errorSetFault = none) (he2 : env.errorPubFault = none) :
    insertCount (streaming env store name).effects = 0 ∧
    (∃ f : Fault, (streaming env store name).store = some (errorDoc env name f)) ∧
    (∀ doc : Doc, (streaming env store name).store = some doc →
      doc.success = some false) ∧
    publishCount Topic.error (streaming env store name).effects = 1 ∧
    (streaming env store name).fault = none := by
  have hparse : ∃ f, parseAndTransform (csvRows s) true = .error f := by
    rcases hpp : parseAndTransform (csvRows s) true with f | R
    · exact ⟨f, rfl⟩
    · exfalso
      rcases hbad with ⟨row, hmem, hlen⟩ | ⟨i, row, hget, raw, hraw, hdt⟩
      · exact hlen (parseAndTransform_ok_length (csvRows s) true R hpp row hmem)
      · exact parseAndTransform_true_datetime (csvRows s) R hpp i row hget raw hraw hdt
  rcases hparse with ⟨f, hpp⟩
  have htb : tryBranch env name store = ⟨[], store, some f⟩ :=
    tryBranch_parse_error env name store s f hc hpp
  have hstream : streaming env store name =
      ⟨[Effect.docSet (errorDoc env name f),
        Effect.publish Topic.error (errorMessage name f) name],
       some (errorDoc env name f), none⟩ := by
    unfold streaming
    rw [hl]
    simp only
    rw [htb]
    simp only
    unfold handleError
    rw [he1, he2]
    rfl
  rw [hstream]
  refine ⟨?_, ⟨f, rfl⟩, ?_, ?_, rfl⟩
  · simp [insertCount]
  · intro doc hdoc
    cases Option.some.inj hdoc
    rfl
  · simp [publishCount]

def badRowFile : String := headerLine ++ "\n" ++ "a;b"

def envBadRow : Env := { envOk with fileContents := .ok badRowFile }

/-- Witness for C4: a file whose single data row has two fields. -/
theorem c4_bad_row_no_insert_witness :
    wasAlreadyIngested envBadRow none = .ok false ∧
    envBadRow.fileContents = .ok badRowFile ∧
    (∃ row ∈ csvRows badRowFile, row.length ≠ 19) ∧
    envBadRow.errorSetFault = none ∧ envBadRow.errorPubFault = none ∧
    (insertCount (streaming envBadRow none "bad.csv").effects = 0 ∧
     (∃ f : Fault, (streaming envBadRow none "bad.csv").store =
       some (errorDoc envBadRow "bad.csv" f)) ∧
     (∀ doc : Doc, (streaming envBadRow none "bad.csv").store = some doc →
       doc.success = some false) ∧
     publishCount Topic.error (streaming envBadRow none "bad.csv").effects = 1 ∧
     (streaming envBadRow none "bad.csv").fault = none) :=
  ⟨rfl, rfl, ⟨["a", "b"], by decide, by decide⟩, rfl, rfl,
   c4_bad_row_no_insert envBadRow none "bad.csv" badRowFile rfl rfl
     (Or.inl ⟨["a", "b"], by decide, by decide⟩) rfl rfl⟩

/-- The raw row destructured from `dataLine`: longitude 9.2 then latitude
45.1, per source column order. -/
def sampleRaw : RawRow :=
  ⟨"Jan 5, 2018 3:04:05 PM", "SN1", "9.2", "45.1", "h", "r", "l", "f", "g",
   "sr", "mt", "fp", "rp", "gs", "at", "pb", "dl", "aw", "cs"⟩

/-- C5: for every well-formed 19-field row the transform yields an 18-field
row whose position field is latitude-comma-longitude (latitude first), whose
datetime is the strptime result rendered as "YYYY-MM-DD HH:MM:SS", and whose
other 16 fields pass through verbatim; concretely, latitude 45.1 and
longitude 9.2 merge to "45.1, 9.2", and "Jan 5, 2018 3:04:05 PM" renders as
"2018-01-05 15:04:05". -/
theorem c5_transform_spec :
    (∀ (r : RawRow) (dt : PyDateTime),
      (transformRow r dt).toList.length = 18 ∧
      (transformRow r dt).gps = r.gpsLat ++ ", " ++ r.gpsLon ∧
      (transformRow r dt).dateTimeStr = datetimeStr dt ∧
      (transformRow r dt).serial = r.serial ∧
      (transformRow r dt).workingHs = r.workingHs ∧
      (transformRow r dt).engineRpm = r.engineRpm ∧
      (transformRow r dt).engineLoad = r.engineLoad ∧
      (transformRow r dt).fuelConsumption = r.fuelConsumption ∧
      (transformRow r dt).speedGearbox = r.speedGearbox ∧
      (transformRow r dt).speedRadar = r.speedRadar ∧
      (transformRow r dt).motorTemperature = r.motorTemperature ∧
      (transformRow r dt).frontPtoRpm = r.frontPtoRpm ∧
      (transformRow r dt).rearPtoRpm = r.rearPtoRpm ∧
      (transformRow r dt).gearShift = r.gearShift ∧
      (transformRow r dt).ambientTemperature = r.ambientTemperature ∧
      (transformRow r dt).parkingBreakStatus = r.parkingBreakStatus ∧
      (transformRow r dt).differentialLockStatus = r.differentialLockStatus ∧
      (transformRow r dt).allWheelStatus = r.allWheelStatus ∧
      (transformRow r dt).creeperStatus = r.creeperStatus) ∧
    strptimeTractor "Jan 5, 2018 3:04:05 PM" = some ⟨2018, 1, 5, 15, 4, 5⟩ ∧
    datetimeStr ⟨2018, 1, 5, 15, 4, 5⟩ = "2018-01-05 15:04:05" ∧
    sampleRaw.gpsLat = "45.1" ∧ sampleRaw.gpsLon = "9.2" ∧
    (transformRow sampleRaw ⟨2018, 1, 5, 15, 4, 5⟩).gps = "45.1, 9.2" :=
  ⟨fun r dt =>
    ⟨rfl, rfl, rfl, rfl, rfl, rfl, rfl, rfl, rfl, rfl, rfl, rfl, rfl, rfl,
     rfl, rfl, rfl, rfl, rfl⟩,
   by decide, by decide, rfl, rfl, by decide⟩

/-- C6: for an object with no prior successful record, a run in which the
bulk insert reports no row errors ends with the success document fully
replacing the stored record, exactly one success notification carrying the
object name as file_name metadata, nothing on the error topic, and no
escaping fault. -/
theorem c6_success_path (env : Env) (store : Option Doc) (name : String)
    (hl : wasAlreadyIngested env store = .ok false)
    (hins : (insertIntoBigquery env).2 = none)
    (h1 : env.successSetFault = none) (h2 : env.successPubFault = none) :
    (streaming env store name).store = some (successDoc env) ∧
    (successDoc env).success = some true ∧
    (successDoc env).when = some env.now ∧
    (successDoc env).error_message = none ∧
    (successDoc env).duplication_attempts = none ∧
    publishCount Topic.success (streaming env store name).effects = 1 ∧
    Effect.publish Topic.success (successMessage name) name ∈
      (streaming env store name).effects ∧
    publishCount Topic.error (streaming env store name).effects = 0 ∧
    (streaming env store name).fault = none := by
  have htb : tryBranch env name store =
      ⟨(insertIntoBigquery env).1 ++
        [Effect.docSet (successDoc env),
         Effect.publish Topic.success (successMessage name) name],
       some (successDoc env), none⟩ := by
    unfold tryBranch
    simp only
    rw [hins]
    unfold handleSuccess
    rw [h1, h2]
  have hstream : streaming env store name =
      ⟨(insertIntoBigquery env).1 ++
        [Effect.docSet (successDoc env),
         Effect.publish Topic.success (successMessage name) name],
       some (successDoc env), none⟩ := by
    unfold streaming
    rw [hl]
    simp only
    rw [htb]
  rw [hstream]
  refine ⟨rfl, rfl, rfl, rfl, rfl, ?_, ?_, ?_, rfl⟩
  · show publishCount Topic.success (_ ++ _) = 1
    rw [publishCount, List.countP_append, ← publishCount, ← publishCount,
      insertIntoBigquery_no_publish env Topic.success]
    simp [publishCount]
  · simp
  · show publishCount Topic.error (_ ++ _) = 0
    rw [publishCount, List.countP_append, ← publishCount, ← publishCount,
      insertIntoBigquery_no_publish env Topic.error]
    simp [publishCount]

/-- Witness for C6: a fresh object and the valid sample file. -/
theorem c6_success_path_witness :
    wasAlreadyIngested envSample none = .ok false ∧
    (insertIntoBigquery envSample).2 = none ∧
    envSample.successSetFault = none ∧ envSample.successPubFault = none ∧
    ((streaming envSample none "tractor_42.csv").store = some (successDoc envSample) ∧
     (successDoc envSample).success = some true ∧
     (successDoc envSample).when = some envSample.now ∧
     (successDoc envSample).error_message = none ∧
     (successDoc envSample).duplication_attempts = none ∧
     publishCount Topic.success (streaming envSample none "tractor_42.csv").effects = 1 ∧
     Effect.publish Topic.success (successMessage "tractor_42.csv") "tractor_42.csv" ∈
       (streaming envSample none "tractor_42.csv").effects ∧
     publishCount Topic.error (streaming envSample none "tractor_42.csv").effects = 0 ∧
     (streaming envSample none "tractor_42.csv").fault = none) :=
  ⟨rfl, by decide, rfl, rfl,
   c6_success_path envSample none "tractor_42.csv" rfl (by decide) rfl rfl⟩

def envHdr3 : Env := { envOk with fileContents := .ok "a;b;c" }

/-- C7 counterexample: a file whose only row has three fields is a
header-only file, yet the run is an error case — the loop destructures the
first row before skipping it, so the claimed unconditional discard fails and
the failure path runs instead of yielding an empty insert batch. -/
theorem c7_header_counterexample :
    csvRows "a;b;c" = [["a", "b", "c"]] ∧
    parseAndTransform (csvRows "a;b;c") true = .error .parseError ∧
    (streaming envHdr3 none "hdr.csv").store =
      some (errorDoc envHdr3 "hdr.csv" .parseError) ∧
    (errorDoc envHdr3 "hdr.csv" .parseError).success = some false ∧
    publishCount Topic.error (streaming envHdr3 none "hdr.csv").effects = 1 ∧
    insertCount (streaming envHdr3 none "hdr.csv").effects = 0 := by
  refine ⟨by decide, by decide, by decide, rfl, by decide, by decide⟩

/-- C7 amended: the first row is discarded as a header, contributing nothing
to the batch and needing no parseable datetime, provided it destructures into
the 19-field schema; an empty file, and a file whose only row is a 19-field
header, are not error cases and yield the empty batch.  (A sole row with any
other field count raises a parse error instead, per the counterexample.) -/
theorem c7_header_skip_amended (row : List String) (rest : List (List String))
    (raw : RawRow) (h : destructure19 row = some raw) :
    csvRows "" = [] ∧
    parseAndTransform ([] : List (List String)) true = .ok [] ∧
    parseAndTransform (row :: rest) true = parseAndTransform rest false ∧
    parseAndTransform [row] true = .ok [] := by
  refine ⟨by decide, rfl, ?_, ?_⟩
  · rw [parseAndTransform.eq_def]
    simp only [h]
    rfl
  · rw [parseAndTransform.eq_def]
    simp only [h]
    rfl

/-- The header row of `headerLine`, as the loop sees it. -/
def headerRow : List String :=
  ["date", "serial", "lon", "lat", "wh", "rpm", "load", "fuel", "gbx",
   "radar", "mtemp", "fpto", "rpto", "gear", "atemp", "pbrake", "dlock",
   "awheel", "creep"]

/-- Witness for the amended C7 at a concrete 19-field header row. -/
theorem c7_header_skip_amended_witness :
    destructure19 headerRow = some
      ⟨"date", "serial", "lon", "lat", "wh", "rpm", "load", "fuel", "gbx",
       "radar", "mtemp", "fpto", "rpto", "gear", "atemp", "pbrake", "dlock",
       "awheel", "creep"⟩ ∧
    (csvRows "" = [] ∧
     parseAndTransform ([] : List (List String)) true = .ok [] ∧
     parseAndTransform [headerRow] true =
       parseAndTransform ([] : List (List String)) false ∧
     parseAndTransform [headerRow] true = .ok []) :=
  ⟨by decide,
   c7_header_skip_amended headerRow []
     ⟨"date", "serial", "lon", "lat", "wh", "rpm", "load", "fuel", "gbx",
      "radar", "mtemp", "fpto", "rpto", "gear", "atemp", "pbrake", "dlock",
      "awheel", "creep"⟩ (by decide)⟩

def envErrPubFail : Env :=
  { envOk with
    fileContents := .error .notFound,
    errorPubFault := some (.transport "publish failed") }

/-- C8 counterexample: with the lookup and the duplicate path healthy, a
fault while publishing the error notification inside the failure handler
still escapes the entry point — so the two surfaces named by the claim are
not the only ones that propagate. -/
theorem c8_uncaught_surfaces_counterexample :
    envErrPubFail.lookupFault = none ∧
    envErrPubFail.dupGetFault = none ∧
    envErrPubFail.dupUpdateFault = none ∧
    (streaming envErrPubFail none "f.csv").fault =
      some (.transport "publish failed") := by
  refine ⟨rfl, rfl, rfl, by decide⟩

/-- C8 amended: a fault in the initial status-record lookup propagates (the
run performs no effect), a fault in the duplicate path's second get or its
update propagates, and a fault while writing the failure record or publishing
the error notification inside the failure handler propagates as well; every
other fault — fetch, decode, parse, datetime, bulk insert, success-record
write, success publish — is converted to the failure path and nothing
escapes when the failure handler's own calls succeed. -/
theorem c8_fault_propagation_amended :
    (∀ (env : Env) (store : Option Doc) (name : String) (f : Fault),
      env.lookupFault = some f →
      streaming env store name = ⟨[], store, some f⟩) ∧
    (∀ (env : Env) (d : Doc) (name : String) (f : Fault),
      env.lookupFault = none → d.success = some true →
      env.dupGetFault = some f →
      (streaming env (some d) name).fault = some f) ∧
    (∀ (env : Env) (d : Doc) (name : String) (f : Fault),
      env.lookupFault = none → d.success = some true →
      env.dupGetFault = none → env.dupUpdateFault = some f →
      (streaming env (some d) name).fault = some f) ∧
    (∀ (env : Env) (store : Option Doc) (name : String) (f g : Fault),
      wasAlreadyIngested env store = .ok false →
      (tryBranch env name store).fault = some f →
      env.errorSetFault = some g →
      (streaming env store name).fault = some g) ∧
    (∀ (env : Env) (store : Option Doc) (name : String) (f g : Fault),
      wasAlreadyIngested env store = .ok false →
      (tryBranch env name store).fault = some f →
      env.errorSetFault = none → env.errorPubFault = some g →
      (streaming env store name).fault = some g) ∧
    (∀ (env : Env) (store : Option Doc) (name : String),
      wasAlreadyIngested env store = .ok false →
      env.errorSetFault = none → env.errorPubFault = none →
      (streaming env store name).fault = none) := by
  refine ⟨?_, ?_, ?_, ?_, ?_, ?_⟩
  · intro env store name f h
    unfold streaming wasAlreadyIngested
    rw [h]
  · intro env d name f h1 h2 h3
    simp [streaming, wasAlreadyIngested, handleDuplication, h1, h2, h3]
  · intro env d name f h1 h2 h3 h4
    simp [streaming, wasAlreadyIngested, handleDuplication, h1, h2, h3, h4]
  · intro env store name f g hw hf hset
    unfold streaming
    rw [hw]
    simp only
    rw [hf]
    unfold handleError
    rw [hset]
  · intro env store name f g hw hf hset hpub
    unfold streaming
    rw [hw]
    simp only
    rw [hf]
    unfold handleError
    rw [hset, hpub]
  · intro env store name hw h1 h2
    unfold streaming
    rw [hw]
    simp only
    rcases hf : (tryBranch env name store).fault with _ | f
    · exact hf
    · unfold handleError
      rw [h1, h2]

def envLookupFail : Env := { envOk with lookupFault := some (.transport "get failed") }

def envDupGetFail : Env := { envOk with dupGetFault := some (.transport "get2 failed") }

def envDupUpdFail : Env :=
  { envOk with dupUpdateFault := some (.transport "update failed") }

def envErrSetFail : Env :=
  { envOk with
    fileContents := .error .notFound,
    errorSetFault := some (.transport "set failed") }

/-- Witness for the amended C8: each propagation conjunct instantiated at a
concrete environment. -/
theorem c8_fault_propagation_amended_witness :
    streaming envLookupFail none "f.csv" =
      ⟨[], none, some (.transport "get failed")⟩ ∧
    (streaming envDupGetFail (some docPrior) "f.csv").fault =
      some (.transport "get2 failed") ∧
    (streaming envDupUpdFail (some docPrior) "f.csv").fault =
      some (.transport "update failed") ∧
    (streaming envErrSetFail none "f.csv").fault =
      some (.transport "set failed") ∧
    (streaming envErrPubFail none "f.csv").fault =
      some (.transport "publish failed") ∧
    (streaming envFetchFail none "f.csv").fault = none :=
  ⟨c8_fault_propagation_amended.1 envLookupFail none "f.csv"
     (.transport "get failed") rfl,
   c8_fault_propagation_amended.2.1 envDupGetFail docPrior "f.csv"
     (.transport "get2 failed") rfl rfl rfl,
   c8_fault_propagation_amended.2.2.1 envDupUpdFail docPrior "f.csv"
     (.transport "update failed") rfl rfl rfl rfl,
   c8_fault_propagation_amended.2.2.2.1 envErrSetFail none "f.csv"
     .notFound (.transport "set failed") rfl rfl rfl,
   c8_fault_propagation_amended.2.2.2.2.1 envErrPubFail none "f.csv"
     .notFound (.transport "publish failed") rfl rfl rfl rfl,
   c8_fault_propagation_amended.2.2.2.2.2 envFetchFail none "f.csv" rfl rfl rfl⟩

/-- C9: two consecutive failing ingestions of the same never-succeeded object
each write a fresh failure document by full replace — the second stored
record is exactly the second run's failure document, carrying no field over
from the first — and each run publishes its own error notification, two in
total. -/
theorem c9_failure_path_idempotent (env1 env2 : Env) (store : Option Doc)
    (name : String) (f1 f2 : Fault)
    (h0 : wasAlreadyIngested env1 store = .ok false)
    (hf1 : (tryBranch env1 name store).fault = some f1)
    (e11 : env1.errorSetFault = none) (e12 : env1.errorPubFault = none)
    (hl2 : env2.lookupFault = none)
    (hf2 : (tryBranch env2 name (some (errorDoc env1 name f1))).fault = some f2)
    (e21 : env2.errorSetFault = none) (e22 : env2.errorPubFault = none) :
    (streaming env1 store name).store = some (errorDoc env1 name f1) ∧
    (streaming env2 (streaming env1 store name).store name).store =
      some (errorDoc env2 name f2) ∧
    (errorDoc env2 name f2).success = some false ∧
    (errorDoc env2 name f2).when = some env2.now ∧
    (errorDoc env2 name f2).error_message = some (errorMessage name f2) ∧
    (errorDoc env2 name f2).duplication_attempts = none ∧
    publishCount Topic.error (streaming env1 store name).effects = 1 ∧
    publishCount Topic.error
      (streaming env2 (streaming env1 store name).store name).effects = 1 ∧
    publishCount Topic.error ((streaming env1 store name).effects ++
      (streaming env2 (streaming env1 store name).store name).effects) = 2 := by
  have h1 := streaming_error_path env1 store name f1 h0 hf1 e11 e12
  have hst1 : (streaming env1 store name).store = some (errorDoc env1 name f1) := by
    rw [h1]
  have hw2 : wasAlreadyIngested env2 (some (errorDoc env1 name f1)) = .ok false := by
    unfold wasAlreadyIngested
    rw [hl2]
    rfl
  have h2 := streaming_error_path env2 (some (errorDoc env1 name f1)) name f2
    hw2 hf2 e21 e22
  have count1 : publishCount Topic.error (streaming env1 store name).effects = 1 := by
    rw [h1]
    show publishCount Topic.error (_ ++ _) = 1
    rw [publishCount, List.countP_append, ← publishCount, ← publishCount,
      tryBranch_fault_no_publish env1 name store Topic.error f1 hf1]
    simp [publishCount]
  have count2 : publishCount Topic.error
      (streaming env2 (some (errorDoc env1 name f1)) name).effects = 1 := by
    rw [h2]
    show publishCount Topic.error (_ ++ _) = 1
    rw [publishCount, List.countP_append, ← publishCount, ← publishCount,
      tryBranch_fault_no_publish env2 name (some (errorDoc env1 name f1))
        Topic.error f2 hf2]
    simp [publishCount]
  rw [hst1]
  refine ⟨rfl, ?_, rfl, rfl, rfl, rfl, count1, count2, ?_⟩
  · rw [h2]
  · rw [publishCount, List.countP_append, ← publishCount, ← publishCount,
      count1, count2]

/-- Witness for C9: the fetch faults in both consecutive runs. -/
theorem c9_failure_path_idempotent_witness :
    wasAlreadyIngested envFetchFail none = .ok false ∧
    (tryBranch envFetchFail "fail.csv" none).fault = some .notFound ∧
    envFetchFail.errorSetFault = none ∧ envFetchFail.errorPubFault = none ∧
    envFetchFail.lookupFault = none ∧
    (tryBranch envFetchFail "fail.csv"
      (some (errorDoc envFetchFail "fail.csv" .notFound))).fault = some .notFound ∧
    ((streaming envFetchFail none "fail.csv").store =
       some (errorDoc envFetchFail "fail.csv" .notFound) ∧
     (streaming envFetchFail (streaming envFetchFail none "fail.csv").store
        "fail.csv").store =
       some (errorDoc envFetchFail "fail.csv" .notFound) ∧
     (errorDoc envFetchFail "fail.csv" .notFound).success = some false ∧
     (errorDoc envFetchFail "fail.csv" .notFound).when = some envFetchFail.now ∧
     (errorDoc envFetchFail "fail.csv" .notFound).error_message =
       some (errorMessage "fail.csv" .notFound) ∧
     (errorDoc envFetchFail "fail.csv" .notFound).duplication_attempts = none ∧
     publishCount Topic.error (streaming envFetchFail none "fail.csv").effects = 1 ∧
     publishCount Topic.error
       (streaming envFetchFail (streaming envFetchFail none "fail.csv").store
         "fail.csv").effects = 1 ∧
     publishCount Topic.error ((streaming envFetchFail none "fail.csv").effects ++
       (streaming envFetchFail (streaming envFetchFail none "fail.csv").store
         "fail.csv").effects) = 2) :=
  ⟨rfl, rfl, rfl, rfl, rfl, rfl,
   c9_failure_path_idempotent envFetchFail envFetchFail none "fail.csv"
     .notFound .notFound rfl rfl rfl rfl rfl rfl rfl rfl⟩
